import Mathlib

/-!
Shallow embedding of the asynchronous torrent-creation job controller of
`dottorrent_gui.py`: the single-mode worker thread (`CreateTorrentQThread.run`),
the batch-mode worker thread (`CreateTorrentBatchQThread.run`), their progress
callbacks, cooperative cancellation, the `cancel_creation` operation and the
`creation_finished` terminal handler, together with the piece-size table and
the descriptor-construction code that the claims refer to.

The external hashing engine (the dottorrent library) is out of the repository
and is modelled by its interface contract (spec section 6): `generate` invokes the
progress callback once per tick it delivers, and stops — returning `false` —
as soon as the callback returns `true`; if no callback returns `true` it
returns the engine's own success value for that run.

The cancellation flag (`QThread.requestInterruption` /
`isInterruptionRequested`) is monotone: once set it stays set.  The flag is
only ever read at discrete poll points, so any schedule of the external
setter is captured by the index of the first poll that observes the flag as
set (`none` = the flag is never set during the run).  Each definition below
threads an explicit poll counter; every read of the flag consumes one poll
index.
-/

namespace DottorrentGui

/-- A progress event `(label, done, total)` as carried by the
`progress_update = QtCore.pyqtSignal(str, int, int)` signal. -/
abbrev Ev := String × Nat × Nat

/-- Value of the cancellation flag at poll point `poll`, when the first poll
that observes the flag set is `cancelAfter` (`none` = never set). -/
def tokenAt (cancelAfter : Option Nat) (poll : Nat) : Bool :=
  match cancelAfter with
  | none => false
  | some c => decide (c ≤ poll)

/-- Python `PIECE_SIZES = [2 ** i for i in range(14, 23)]`. -/
def PIECE_SIZES : List Nat := (List.range' 14 9).map (fun i => 2 ^ i)

/-- The `created_by` tag (`CREATOR` in the source).  The version strings it
interpolates come from `version.py` and the dottorrent package, which are
outside the repository; only the identity of the tag matters here. -/
def CREATOR : String := "dottorrent-gui/VERSION dottorrent/VERSION"

/-- Model of `os.path.join(a, b)` for a non-empty base path. -/
def joinPath (a b : String) : String := a ++ "/" ++ b

/-- Helper for `splitTail`: the characters after the last path separator. -/
def splitTailAux : List Char → List Char → List Char
  | [], acc => acc
  | c :: cs, acc =>
    if c = '/' then splitTailAux cs [] else splitTailAux cs (acc ++ [c])

/-- Model of `os.path.split(s)[1]`: the base name after the last separator. -/
def splitTail (s : String) : String := String.mk (splitTailAux s.toList [])

/-- The output filename the batch thread derives for directory entry `e` of
directory `dir`: `os.path.split(os.path.join(dir, e))[1] + '.torrent'`. -/
def derivedName (dir e : String) : String :=
  splitTail (joinPath dir e) ++ ".torrent"

/-- The state of a `dottorrent.Torrent` object, restricted to the fields this
GUI reads or writes.  `priv` models the Python keyword argument `private`
(a Lean reserved word).  Optional fields default to `none` / `[]` exactly as
the dottorrent constructor defaults them. -/
structure Torrent where
  path : String
  trackers : List String
  web_seeds : List String
  priv : Bool
  comment : String
  include_md5 : Bool
  piece_size : Option Nat
  creation_date : Option Nat
  created_by : Option String
deriving DecidableEq

/-- One engine `generate` run, per the spec's engine contract: the list of
progress ticks the engine would deliver to the callback, and the boolean
result `generate` returns when no callback invocation asked it to stop. -/
structure EngineRun where
  ticks : List Ev
  ok : Bool

/-- The descriptor `DottorrentGUI.initializeTorrent` constructs:
`dottorrent.Torrent(self.inputEdit.text(), private=..., comment=...)` —
every other field is left at its constructor default. -/
def initializeTorrent (inputText : String) (privChecked : Bool)
    (comment : String) : Torrent :=
  { path := inputText
    trackers := []
    web_seeds := []
    priv := privChecked
    comment := comment
    include_md5 := false
    piece_size := none
    creation_date := none
    created_by := none }

/-- The `pieceSizeChanged(index)` slot: if a torrent is loaded, assign
`PIECE_SIZES[index]` to its `piece_size`.  Result `none` models the Python
`IndexError` raised for an index outside the table; `some r` is the updated
(optional) torrent. -/
def pieceSizeChanged (torrent : Option Torrent) (index : Nat) :
    Option (Option Torrent) :=
  match torrent with
  | none => some none
  | some t =>
    match PIECE_SIZES.get? index with
    | none => none
    | some s => some (some { t with piece_size := some s })

namespace CreateTorrentQThread

/-- The single-mode `progress_callback`: re-emits its arguments verbatim on
`progress_update` (modelled by appending to the emitted-events list) and
returns `self.isInterruptionRequested()` (one token poll). -/
def progress_callback (cancelAfter : Option Nat) (poll : Nat)
    (events : List Ev) (args : Ev) : List Ev × Nat × Bool :=
  (events ++ [args], poll + 1, tokenAt cancelAfter poll)

/-- The engine's `generate` driving the single-mode callback: one callback
invocation per tick; stops with result `false` as soon as the callback
returns `true`; otherwise returns `ok`.  Result: final poll counter, events
emitted, and the boolean `generate` returned. -/
def generateLoop (cancelAfter : Option Nat) :
    List Ev → Nat → List Ev → Bool → Nat × List Ev × Bool
  | [], poll, events, ok => (poll, events, ok)
  | t :: ts, poll, events, ok =>
    let r := progress_callback cancelAfter poll events t
    if r.2.2 then (r.2.1, r.1, false)
    else generateLoop cancelAfter ts r.2.1 r.1 ok

/-- Observable outcome of one `CreateTorrentQThread.run` execution. -/
structure Result where
  torrentAtGenerate : Torrent
  success : Bool
  events : List Ev
  savedFile : Option (String × Torrent)
deriving DecidableEq

/-- `CreateTorrentQThread.run`: stamps `creation_date` (the current time
`now`) and `created_by` on the descriptor, runs `generate` with
`progress_callback`, records `self.success`, and writes the serialized
torrent to `save_path` via a scoped `with open` if and only if `generate`
returned success. -/
def run (torrent : Torrent) (save_path : String) (now : Nat)
    (cancelAfter : Option Nat) (engine : EngineRun) : Result :=
  let t : Torrent :=
    { torrent with creation_date := some now, created_by := some CREATOR }
  let r := generateLoop cancelAfter engine.ticks 0 [] engine.ok
  { torrentAtGenerate := t
    success := r.2.2
    events := r.2.1
    savedFile := if r.2.2 then some (save_path, t) else none }

end CreateTorrentQThread

/-- `DottorrentGUI.creation_finished`, reading `self.creation_thread.success`.
`none` models the attribute never having been assigned by the run — the read
then raises `AttributeError` instead of producing a status message. -/
def creation_finished (success : Option Bool) : Except String String :=
  match success with
  | none => Except.error "AttributeError: success was never assigned"
  | some true => Except.ok "Finished"
  | some false => Except.ok "Canceled"

/-- One notification observed by the interactive layer for a job: either a
progress event or the terminal status message. -/
inductive Notification where
  | progress (ev : Ev)
  | terminal (msg : String)
deriving DecidableEq

/-- Whether a notification is the terminal one. -/
def Notification.isTerminal : Notification → Bool
  | .progress _ => false
  | .terminal _ => true

/-- The full notification sequence the interactive layer observes for one
single-mode job: the progress events in emission order, then — because Qt
delivers the `finished` signal after `run` returns — the terminal message
produced by `creation_finished`, last. -/
def singleJobNotifications (torrent : Torrent) (save_path : String)
    (now : Nat) (cancelAfter : Option Nat) (engine : EngineRun) :
    List Notification :=
  let r := CreateTorrentQThread.run torrent save_path now cancelAfter engine
  r.events.map Notification.progress ++
    (match creation_finished (some r.success) with
     | Except.ok m => [Notification.terminal m]
     | Except.error _ => [])

/-- The batch-level constants of `CreateTorrentBatchQThread.__init__`. -/
structure BatchConfig where
  path : String
  save_dir : String
  trackers : List String
  web_seeds : List String
  priv : Bool
  comment : String
  include_md5 : Bool

/-- The per-entry `dottorrent.Torrent(p, trackers=..., web_seeds=...,
private=..., comment=..., include_md5=..., creation_date=datetime.now(),
created_by=CREATOR)` constructed by the batch thread. -/
def batchEntryTorrent (cfg : BatchConfig) (p : String) (now : Nat) : Torrent :=
  { path := p
    trackers := cfg.trackers
    web_seeds := cfg.web_seeds
    priv := cfg.priv
    comment := cfg.comment
    include_md5 := cfg.include_md5
    piece_size := none
    creation_date := some now
    created_by := some CREATOR }

namespace CreateTorrentBatchQThread

/-- The batch-mode `callback`: ignores the engine's tick payload and returns
`self.isInterruptionRequested()` (one token poll); it emits nothing. -/
def callback (cancelAfter : Option Nat) (poll : Nat) : Nat × Bool :=
  (poll + 1, tokenAt cancelAfter poll)

/-- The engine's `generate` driving the batch-mode callback: one callback
invocation per tick; stops with result `false` as soon as the callback
returns `true`; otherwise returns `ok`.  Result: final poll counter and the
boolean `generate` returned. -/
def generateBatchLoop (cancelAfter : Option Nat) :
    List Ev → Nat → Bool → Nat × Bool
  | [], poll, ok => (poll, ok)
  | _ :: ts, poll, ok =>
    let r := callback cancelAfter poll
    if r.2 then (r.1, false)
    else generateBatchLoop cancelAfter ts r.1 ok

/-- Observable state of one `CreateTorrentBatchQThread.run` execution:
poll counter, batch-level progress events emitted, files written to the
output directory (path and serialized content), and `self.success`
(`none` while the attribute has never been assigned). -/
structure State where
  poll : Nat
  events : List Ev
  files : List (String × Torrent)
  success : Option Bool
deriving DecidableEq

/-- The `for i, p in enumerate(entries)` loop body of
`CreateTorrentBatchQThread.run`, from entry index `i` on: emit
`(sfn, i, total)`, construct the per-entry torrent, run `generate` with the
batch callback, then `if self.isInterruptionRequested(): return` (one token
poll), else write the file and continue.  `engines i` is the engine run for
entry `i`, `nowAt i` the value of `datetime.now()` at its construction. -/
def runAux (cfg : BatchConfig) (cancelAfter : Option Nat) (nowAt : Nat → Nat)
    (engines : Nat → EngineRun) (total : Nat) :
    List String → Nat → State → State
  | [], _, st => st
  | e :: es, i, st =>
    let p := joinPath cfg.path e
    let sfn := splitTail p ++ ".torrent"
    let st1 : State := { st with events := st.events ++ [(sfn, i, total)] }
    let t := batchEntryTorrent cfg p (nowAt i)
    let g := generateBatchLoop cancelAfter (engines i).ticks st1.poll
      (engines i).ok
    let st2 : State := { st1 with poll := g.1, success := some g.2 }
    if tokenAt cancelAfter st2.poll then { st2 with poll := st2.poll + 1 }
    else
      let st3 : State :=
        { st2 with
          poll := st2.poll + 1
          files := st2.files ++ [(joinPath cfg.save_dir sfn, t)] }
      runAux cfg cancelAfter nowAt engines total es (i + 1) st3

/-- `CreateTorrentBatchQThread.run`: `entries = os.listdir(self.path)` is the
snapshot taken once at start (a parameter here, since the filesystem is
external); the loop then processes it with `runAux`. -/
def run (cfg : BatchConfig) (cancelAfter : Option Nat) (nowAt : Nat → Nat)
    (engines : Nat → EngineRun) (entries : List String) : State :=
  runAux cfg cancelAfter nowAt engines entries.length entries 0
    { poll := 0, events := [], files := [], success := none }

end CreateTorrentBatchQThread

/-- The state of a worker `QThread` as seen by `cancel_creation`: just its
interruption flag. -/
structure ThreadState where
  interruptionRequested : Bool
deriving DecidableEq

/-- `QThread.requestInterruption()`: sets the interruption flag (idempotent). -/
def requestInterruption (t : ThreadState) : ThreadState :=
  { t with interruptionRequested := true }

/-- `DottorrentGUI.cancel_creation`:
`self.creation_thread.requestInterruption()`.  After `creation_finished`
runs, `self.creation_thread` is `None`, so the call raises `AttributeError`
when no job is active; otherwise it sets the thread's interruption flag and
returns at once. -/
def cancel_creation (creation_thread : Option ThreadState) :
    Except String (Option ThreadState) :=
  match creation_thread with
  | none =>
    Except.error "AttributeError: NoneType has no attribute requestInterruption"
  | some t => Except.ok (some (requestInterruption t))

end DottorrentGui

namespace DottorrentGui

theorem tokenAt_none (poll : Nat) : tokenAt none poll = false := rfl

theorem generateLoop_none (ts : List Ev) (poll : Nat) (events : List Ev)
    (ok : Bool) :
    CreateTorrentQThread.generateLoop none ts poll events ok
      = (poll + ts.length, events ++ ts, ok) := by
  induction ts generalizing poll events with
  | nil => simp [CreateTorrentQThread.generateLoop]
  | cons t ts ih =>
    simp only [CreateTorrentQThread.generateLoop,
      CreateTorrentQThread.progress_callback, tokenAt_none, if_neg,
      Bool.false_eq_true, not_false_iff, ih, List.length_cons,
      List.append_assoc, List.singleton_append]
    have h : poll + 1 + ts.length = poll + (ts.length + 1) := by omega
    rw [h]

end DottorrentGui

namespace DottorrentGui

/-- C2: in single mode the destination file is written if and only if the
engine's `generate` call returns success; on success the serialized content
is the completed (stamped) metadata at the destination path, and on
non-success no file is written and the terminal status is `Canceled`. -/
theorem C2_single_write_iff_success :
    ∀ (torrent : Torrent) (save_path : String) (now : Nat)
      (cancelAfter : Option Nat) (engine : EngineRun),
      ((CreateTorrentQThread.run torrent save_path now cancelAfter
          engine).savedFile
        = if (CreateTorrentQThread.run torrent save_path now cancelAfter
              engine).success
          then some (save_path,
            { torrent with creation_date := some now,
                           created_by := some CREATOR })
          else none) ∧
      ((CreateTorrentQThread.run torrent save_path now cancelAfter
          engine).savedFile.isSome
        = (CreateTorrentQThread.run torrent save_path now cancelAfter
            engine).success) ∧
      creation_finished (some false) = Except.ok "Canceled" := by
  intro torrent save_path now cancelAfter engine
  refine ⟨rfl, ?_, rfl⟩
  simp only [CreateTorrentQThread.run]
  cases (CreateTorrentQThread.generateLoop cancelAfter engine.ticks 0 []
      engine.ok).2.2 <;> simp

/-- C6 as the claim states it: `cancel_creation` with no active job is a
no-op that raises no error, and with an active job it sets that job's
interruption flag. -/
def C6_claim : Prop :=
  cancel_creation none = Except.ok none ∧
  ∀ t : ThreadState,
    cancel_creation (some t) = Except.ok (some (requestInterruption t))

/-- C6 counterexample: with no active job (`creation_thread = None`, the
state `creation_finished` leaves behind), `cancel_creation` is not an
error-free no-op — it raises `AttributeError`. -/
theorem C6_counterexample : ¬ C6_claim := by
  intro h
  exact absurd h.1 (by simp [cancel_creation])

/-- C6 amended: invoking `cancel_creation` when no job is active raises an
`AttributeError` (it is not a no-op); when a job is active it sets that
job's interruption flag — changing nothing else — and returns. -/
theorem C6_amended_correct :
    cancel_creation none
      = Except.error
          "AttributeError: NoneType has no attribute requestInterruption" ∧
    ∀ t : ThreadState,
      cancel_creation (some t)
        = Except.ok (some { interruptionRequested := true }) :=
  ⟨rfl, fun _ => rfl⟩

/-- C7: the single-mode progress-forwarding adapter emits every tick it
receives as the identical `(label, done, total)` triple, unchanged and in
order, and returns the current value of the cancellation token; with no
cancellation the whole event stream equals the engine's tick stream. -/
theorem C7_callback_forwards_verbatim :
    (∀ (cancelAfter : Option Nat) (poll : Nat) (events : List Ev) (args : Ev),
      CreateTorrentQThread.progress_callback cancelAfter poll events args
        = (events ++ [args], poll + 1, tokenAt cancelAfter poll)) ∧
    (∀ (torrent : Torrent) (save_path : String) (now : Nat)
      (engine : EngineRun),
      (CreateTorrentQThread.run torrent save_path now none engine).events
        = engine.ticks) := by
  refine ⟨fun _ _ _ _ => rfl, fun torrent save_path now engine => ?_⟩
  simp [CreateTorrentQThread.run, generateLoop_none]

/-- C8: the selectable piece sizes are exactly the nine powers of two
`2^14 … 2^22`, in ascending order, and every successful piece-size change
assigns one of these nine values to the descriptor. -/
theorem C8_piece_sizes :
    PIECE_SIZES = [16384, 32768, 65536, 131072, 262144, 524288, 1048576,
      2097152, 4194304] ∧
    List.Pairwise (· < ·) PIECE_SIZES ∧
    PIECE_SIZES.length = 9 ∧
    ∀ (t t2 : Torrent) (index : Nat),
      pieceSizeChanged (some t) index = some (some t2) →
      ∃ s ∈ PIECE_SIZES, t2.piece_size = some s := by
  have hlist : PIECE_SIZES = [16384, 32768, 65536, 131072, 262144, 524288,
      1048576, 2097152, 4194304] := by decide
  refine ⟨hlist, ?_, by decide, ?_⟩
  · rw [hlist]
    norm_num [List.pairwise_cons]
  intro t t2 index h
  simp only [pieceSizeChanged] at h
  cases hg : PIECE_SIZES.get? index with
  | none => rw [hg] at h; exact absurd h (by simp)
  | some s =>
    rw [hg] at h
    simp only [Option.some.injEq] at h
    refine ⟨s, List.get?_mem hg, ?_⟩
    rw [← h]

/-- C8 witness: changing the piece size with index 0 assigns `2^14`, a
member of the table. -/
theorem C8_piece_sizes_witness :
    ∃ s ∈ PIECE_SIZES,
      ({ initializeTorrent "x" false "" with
          piece_size := some 16384 } : Torrent).piece_size = some s :=
  C8_piece_sizes.2.2.2 (initializeTorrent "x" false "")
    { initializeTorrent "x" false "" with piece_size := some 16384 } 0
    (by decide)

/-- C9: in single mode the creation timestamp and creator tag are absent on
the descriptor as constructed (`initializeTorrent` leaves them unset) and
are stamped with the run-start time at the moment `run` begins, before the
engine's `generate` is invoked. -/
theorem C9_timestamps_at_run_start :
    ∀ (inputText : String) (privChecked : Bool) (comment save_path : String)
      (now : Nat) (cancelAfter : Option Nat) (engine : EngineRun),
      (initializeTorrent inputText privChecked comment).creation_date
        = none ∧
      (initializeTorrent inputText privChecked comment).created_by = none ∧
      (CreateTorrentQThread.run (initializeTorrent inputText privChecked
          comment) save_path now cancelAfter engine).torrentAtGenerate
        = { initializeTorrent inputText privChecked comment with
            creation_date := some now, created_by := some CREATOR } :=
  fun _ _ _ _ _ _ _ => ⟨rfl, rfl, rfl⟩

/-- C10: a batch run over a directory with zero entries emits no progress
events, writes no files, and returns without ever assigning the success
flag, so the terminal handler's unconditional read of that flag raises
`AttributeError` instead of producing a status message. -/
theorem C10_empty_batch_success_unset :
    ∀ (cfg : BatchConfig) (cancelAfter : Option Nat) (nowAt : Nat → Nat)
      (engines : Nat → EngineRun),
      CreateTorrentBatchQThread.run cfg cancelAfter nowAt engines []
        = { poll := 0, events := [], files := [], success := none } ∧
      creation_finished
        (CreateTorrentBatchQThread.run cfg cancelAfter nowAt engines
          []).success
        = Except.error "AttributeError: success was never assigned" :=
  fun _ _ _ _ => ⟨rfl, rfl⟩

end DottorrentGui

namespace DottorrentGui

theorem countP_map_progress (l : List Ev) :
    (l.map Notification.progress).countP Notification.isTerminal = 0 := by
  induction l with
  | nil => rfl
  | cons e l ih => simp [List.countP_cons, ih, Notification.isTerminal]

/-- C5 as the claim states it: every job produces exactly one terminal
status message, delivered last — `Finished` on successful completion,
`Canceled` on cancellation, and an error description (in particular not one
of those two words) when the engine fails without cancellation. -/
def C5_claim : Prop :=
  ∀ (torrent : Torrent) (save_path : String) (now : Nat)
    (cancelAfter : Option Nat) (engine : EngineRun),
    (singleJobNotifications torrent save_path now cancelAfter engine).countP
      Notification.isTerminal = 1 ∧
    (cancelAfter = none → engine.ok = true →
      (singleJobNotifications torrent save_path now cancelAfter
        engine).getLast? = some (Notification.terminal "Finished")) ∧
    (cancelAfter = none → engine.ok = false →
      ∀ m, (singleJobNotifications torrent save_path now cancelAfter
          engine).getLast? = some (Notification.terminal m) →
        m ≠ "Finished" ∧ m ≠ "Canceled")

/-- C5 counterexample: a single-mode job whose engine reports failure while
cancellation was never requested ends with the terminal message `Canceled`,
not with an error description — `creation_finished` has no failure branch. -/
theorem C5_counterexample : ¬ C5_claim := by
  intro h
  have h3 := (h (initializeTorrent "x" false "") "o" 0 none ⟨[], false⟩).2.2
    rfl rfl "Canceled" (by decide)
  exact h3.2 rfl

/-- C5 amended: every single-mode job produces exactly one terminal status
message, observed after all progress notifications (it is the last
notification, so no progress follows it); the message is `Finished` when the
run's success flag is true and `Canceled` otherwise — engine failure
without cancellation is also reported as `Canceled`, not as an error
description. -/
theorem C5_amended_correct :
    ∀ (torrent : Torrent) (save_path : String) (now : Nat)
      (cancelAfter : Option Nat) (engine : EngineRun),
      singleJobNotifications torrent save_path now cancelAfter engine
        = (CreateTorrentQThread.run torrent save_path now cancelAfter
            engine).events.map Notification.progress ++
          [Notification.terminal
            (if (CreateTorrentQThread.run torrent save_path now cancelAfter
                engine).success then "Finished" else "Canceled")] ∧
      (singleJobNotifications torrent save_path now cancelAfter
        engine).countP Notification.isTerminal = 1 ∧
      (singleJobNotifications torrent save_path now cancelAfter
        engine).getLast?
        = some (Notification.terminal
            (if (CreateTorrentQThread.run torrent save_path now cancelAfter
                engine).success then "Finished" else "Canceled")) := by
  intro torrent save_path now cancelAfter engine
  have h1 : singleJobNotifications torrent save_path now cancelAfter engine
      = (CreateTorrentQThread.run torrent save_path now cancelAfter
          engine).events.map Notification.progress ++
        [Notification.terminal
          (if (CreateTorrentQThread.run torrent save_path now cancelAfter
              engine).success then "Finished" else "Canceled")] := by
    simp only [singleJobNotifications]
    cases h : (CreateTorrentQThread.run torrent save_path now cancelAfter
        engine).success <;>
      simp [creation_finished, h]
  refine ⟨h1, ?_, ?_⟩
  · rw [h1, List.countP_append, countP_map_progress]
    rfl
  · rw [h1, List.getLast?_concat]

end DottorrentGui

namespace DottorrentGui

open CreateTorrentBatchQThread in
theorem generateBatchLoop_none (ts : List Ev) (poll : Nat) (ok : Bool) :
    generateBatchLoop none ts poll ok = (poll + ts.length, ok) := by
  induction ts generalizing poll with
  | nil => simp [generateBatchLoop]
  | cons t ts ih =>
    simp only [generateBatchLoop, callback, tokenAt_none, Bool.false_eq_true,
      if_false, ih, List.length_cons]
    have h : poll + 1 + ts.length = poll + (ts.length + 1) := by omega
    rw [h]

open CreateTorrentBatchQThread in
theorem generateBatchLoop_no_stop (c : Nat) (ts : List Ev) :
    ∀ (poll : Nat) (ok : Bool), poll + ts.length ≤ c →
      generateBatchLoop (some c) ts poll ok = (poll + ts.length, ok) := by
  induction ts with
  | nil => intro poll ok h; simp [generateBatchLoop]
  | cons t ts ih =>
    intro poll ok h
    have hc : tokenAt (some c) poll = false := by
      simp only [tokenAt, decide_eq_false_iff_not]
      simp only [List.length_cons] at h
      omega
    simp only [generateBatchLoop, callback, hc, Bool.false_eq_true, if_false]
    rw [ih (poll + 1) ok (by simp only [List.length_cons] at h; omega)]
    simp only [List.length_cons]
    have h2 : poll + 1 + ts.length = poll + (ts.length + 1) := by omega
    rw [h2]

open CreateTorrentBatchQThread in
theorem generateBatchLoop_stop_first (c : Nat) (ts : List Ev) (poll : Nat)
    (ok : Bool) (hne : ts ≠ []) (h : c ≤ poll) :
    generateBatchLoop (some c) ts poll ok = (poll + 1, false) := by
  cases ts with
  | nil => exact absurd rfl hne
  | cons t ts =>
    have hc : tokenAt (some c) poll = true := by
      simp only [tokenAt, decide_eq_true_eq]; exact h
    simp [generateBatchLoop, callback, hc]

/-- The batch-level progress events `(derivedName, index, total)` that the
batch thread emits for the entries `es`, starting at entry index `i`. -/
def entryEvents (dir : String) (total : Nat) : List String → Nat → List Ev
  | [], _ => []
  | e :: es, i => (derivedName dir e, i, total) :: entryEvents dir total es (i + 1)

/-- The output files `(savePath, serializedTorrent)` the batch thread writes
for the entries `es`, starting at entry index `i`. -/
def entryFiles (cfg : BatchConfig) (nowAt : Nat → Nat) :
    List String → Nat → List (String × Torrent)
  | [], _ => []
  | e :: es, i =>
    (joinPath cfg.save_dir (derivedName cfg.path e),
      batchEntryTorrent cfg (joinPath cfg.path e) (nowAt i))
      :: entryFiles cfg nowAt es (i + 1)

theorem entryEvents_length (dir : String) (total : Nat) :
    ∀ (es : List String) (i : Nat),
      (entryEvents dir total es i).length = es.length := by
  intro es
  induction es with
  | nil => intro i; rfl
  | cons e es ih => intro i; simp [entryEvents, ih]

theorem entryFiles_length (cfg : BatchConfig) (nowAt : Nat → Nat) :
    ∀ (es : List String) (i : Nat),
      (entryFiles cfg nowAt es i).length = es.length := by
  intro es
  induction es with
  | nil => intro i; rfl
  | cons e es ih => intro i; simp [entryFiles, ih]

theorem entryEvents_getD (dir : String) (total : Nat) :
    ∀ (es : List String) (i j : Nat), j < es.length →
      (entryEvents dir total es i).getD j ("", 0, 0)
        = (derivedName dir (es.getD j ""), i + j, total) := by
  intro es
  induction es with
  | nil => intro i j h; exact absurd h (by simp)
  | cons e es ih =>
    intro i j h
    cases j with
    | zero => simp [entryEvents]
    | succ j =>
      have h2 : j < es.length := by simp only [List.length_cons] at h; omega
      simp only [entryEvents, List.getD_cons_succ, ih (i + 1) j h2]
      have h3 : i + 1 + j = i + (j + 1) := by omega
      rw [h3]

open CreateTorrentBatchQThread in
theorem runAux_none (cfg : BatchConfig) (nowAt : Nat → Nat)
    (engines : Nat → EngineRun) (total : Nat) :
    ∀ (es : List String) (i : Nat) (st : State),
      (runAux cfg none nowAt engines total es i st).events
          = st.events ++ entryEvents cfg.path total es i ∧
      (runAux cfg none nowAt engines total es i st).files
          = st.files ++ entryFiles cfg nowAt es i ∧
      (runAux cfg none nowAt engines total es i st).success
          = (if es.isEmpty then st.success
             else some ((engines (i + es.length - 1)).ok)) := by
  intro es
  induction es with
  | nil => intro i st; simp [runAux, entryEvents, entryFiles]
  | cons e es ih =>
    intro i st
    simp only [runAux, generateBatchLoop_none, tokenAt_none,
      Bool.false_eq_true, if_false]
    obtain ⟨h1, h2, h3⟩ := ih (i + 1)
      { poll := st.poll + (engines i).ticks.length + 1
        events := st.events ++ [(splitTail (joinPath cfg.path e)
          ++ ".torrent", i, total)]
        files := st.files ++ [(joinPath cfg.save_dir
          (splitTail (joinPath cfg.path e) ++ ".torrent"),
          batchEntryTorrent cfg (joinPath cfg.path e) (nowAt i))]
        success := some (engines i).ok }
    refine ⟨?_, ?_, ?_⟩
    · rw [h1]
      simp [entryEvents, derivedName]
    · rw [h2]
      simp [entryFiles, derivedName]
    · rw [h3]
      cases es with
      | nil => simp [entryEvents]
      | cons f fs =>
        simp only [List.isEmpty_cons, Bool.false_eq_true, if_false,
          List.length_cons]
        have h4 : i + 1 + (fs.length + 1) - 1 = i + (fs.length + 1 + 1) - 1 :=
          by omega
        rw [h4]

end DottorrentGui

namespace DottorrentGui

/-- C3: in batch mode over a snapshot of N entries, absent cancellation the
emitted batch-level events are exactly the N triples
`(derivedOutputName, i, N)` for `i = 0 .. N-1`, in increasing order of `i`
(the j-th event carries index j), and nothing else — in particular no
per-entry piece-level progress is forwarded. -/
theorem C3_batch_progress_events :
    ∀ (cfg : BatchConfig) (nowAt : Nat → Nat) (engines : Nat → EngineRun)
      (entries : List String),
      (CreateTorrentBatchQThread.run cfg none nowAt engines entries).events
        = entryEvents cfg.path entries.length entries 0 ∧
      (CreateTorrentBatchQThread.run cfg none nowAt engines
        entries).events.length = entries.length ∧
      ∀ j, j < entries.length →
        (CreateTorrentBatchQThread.run cfg none nowAt engines
          entries).events.getD j ("", 0, 0)
          = (derivedName cfg.path (entries.getD j ""), j, entries.length) := by
  intro cfg nowAt engines entries
  obtain ⟨h1, _, _⟩ := runAux_none cfg nowAt engines entries.length entries 0
    { poll := 0, events := [], files := [], success := none }
  have he : (CreateTorrentBatchQThread.run cfg none nowAt engines
      entries).events = entryEvents cfg.path entries.length entries 0 := by
    rw [CreateTorrentBatchQThread.run, h1]
    simp
  refine ⟨he, ?_, ?_⟩
  · rw [he, entryEvents_length]
  · intro j hj
    rw [he]
    have := entryEvents_getD cfg.path entries.length entries 0 j hj
    simpa using this

/-- C3 witness: a one-entry batch over directory "d" with entry "a" emits,
as its first (index 0 of 1) event, `("a.torrent", 0, 1)`. -/
theorem C3_batch_progress_events_witness :
    (CreateTorrentBatchQThread.run ⟨"d", "o", [], [], false, "", false⟩ none
      (fun _ => 0) (fun _ => EngineRun.mk [] true) ["a"]).events.getD 0
      ("", 0, 0) = ("a.torrent", 0, 1) := by
  have h := (C3_batch_progress_events ⟨"d", "o", [], [], false, "", false⟩
    (fun _ => 0) (fun _ => EngineRun.mk [] true) ["a"]).2.2 0 (by decide)
  rw [h]
  decide

/-- C4 as the claim states it: if entry `i`'s hashing fails for a reason
other than cancellation, the whole batch aborts — no file is written for
the failed entry (so exactly `i` files exist), no later entry is processed
(so exactly `i+1` events were emitted), and the terminal message is an
error description, not `Finished` or `Canceled`. -/
def C4_claim : Prop :=
  ∀ (cfg : BatchConfig) (nowAt : Nat → Nat) (engines : Nat → EngineRun)
    (entries : List String) (i : Nat),
    i < entries.length → (engines i).ok = false →
    (CreateTorrentBatchQThread.run cfg none nowAt engines
      entries).files.length = i ∧
    (CreateTorrentBatchQThread.run cfg none nowAt engines
      entries).events.length = i + 1 ∧
    ∀ m, creation_finished (CreateTorrentBatchQThread.run cfg none nowAt
        engines entries).success = Except.ok m →
      m ≠ "Finished" ∧ m ≠ "Canceled"

/-- C4 counterexample: a two-entry batch whose first entry's `generate`
reports non-success (no cancellation ever requested) still writes two files
— the failed entry's file among them — and continues with the second entry,
so the batch does not abort at the failed entry. -/
theorem C4_counterexample : ¬ C4_claim := by
  intro h
  have h0 := h ⟨"d", "o", [], [], false, "", false⟩ (fun _ => 0)
    (fun j => if j = 0 then EngineRun.mk [] false else EngineRun.mk [] true)
    ["a", "b"] 0 (by decide) (by decide)
  have h2 : (CreateTorrentBatchQThread.run ⟨"d", "o", [], [], false, "",
      false⟩ none (fun _ => 0)
      (fun j => if j = 0 then EngineRun.mk [] false else EngineRun.mk [] true)
      ["a", "b"]).files.length = 2 := by decide
  exact absurd (h0.1.symm.trans h2) (by decide)

/-- C4 amended: a non-cancellation `generate` failure on one entry does not
abort the batch — the failed entry's output file is written all the same,
every later entry is processed and written, and the terminal message
reflects only the last entry's `generate` result (`Finished` if it
succeeded, `Canceled` otherwise); no `Failed`-style message exists. -/
theorem C4_amended_correct :
    ∀ (cfg : BatchConfig) (nowAt : Nat → Nat) (engines : Nat → EngineRun)
      (entries : List String),
      (CreateTorrentBatchQThread.run cfg none nowAt engines entries).files
        = entryFiles cfg nowAt entries 0 ∧
      (CreateTorrentBatchQThread.run cfg none nowAt engines
        entries).files.length = entries.length ∧
      (CreateTorrentBatchQThread.run cfg none nowAt engines entries).success
        = (if entries.isEmpty then none
           else some ((engines (entries.length - 1)).ok)) := by
  intro cfg nowAt engines entries
  obtain ⟨_, h2, h3⟩ := runAux_none cfg nowAt engines entries.length entries 0
    { poll := 0, events := [], files := [], success := none }
  have hf : (CreateTorrentBatchQThread.run cfg none nowAt engines
      entries).files = entryFiles cfg nowAt entries 0 := by
    rw [CreateTorrentBatchQThread.run, h2]
    simp
  refine ⟨hf, ?_, ?_⟩
  · rw [hf, entryFiles_length]
  · rw [CreateTorrentBatchQThread.run, h3]
    simp

end DottorrentGui

namespace DottorrentGui

/-- C1 as the claim states it: the batch thread checks the cancellation
token before starting each entry's hashing and, once the token is set,
stops immediately — so when the token is already set before the run's first
entry, no entry is processed: no progress event is emitted, no file is
written, and (hashing never having started) the success flag is never
assigned. -/
def C1_claim : Prop :=
  ∀ (cfg : BatchConfig) (nowAt : Nat → Nat) (engines : Nat → EngineRun)
    (entries : List String),
    entries ≠ [] →
    (CreateTorrentBatchQThread.run cfg (some 0) nowAt engines
      entries).events = [] ∧
    (CreateTorrentBatchQThread.run cfg (some 0) nowAt engines
      entries).files = [] ∧
    (CreateTorrentBatchQThread.run cfg (some 0) nowAt engines
      entries).success = none

/-- C1 counterexample: with the token set before the run begins, the batch
still emits the first entry's progress event and still invokes its
`generate` (assigning the success flag from its result) — the token is only
polled inside the entry's hashing callback and after `generate` returns,
never before the entry starts. -/
theorem C1_counterexample : ¬ C1_claim := by
  intro h
  have h0 := h ⟨"d", "o", [], [], false, "", false⟩ (fun _ => 0)
    (fun _ => EngineRun.mk [("x", 0, 1)] true) ["a"] (by simp)
  have h2 : (CreateTorrentBatchQThread.run ⟨"d", "o", [], [], false, "",
      false⟩ (some 0) (fun _ => 0)
      (fun _ => EngineRun.mk [("x", 0, 1)] true) ["a"]).success
      = some false := by decide
  exact absurd (h0.2.2.symm.trans h2) (by decide)

/-- C1 amended: the token is polled during each entry's hashing (per tick)
and once after each entry's `generate` returns — not before the entry
starts.  Once the token is observed set at that post-`generate` check, the
in-flight entry's progress event has still been emitted and its `generate`
still invoked, but no file is written for it, no later entry is processed
or written, and every file already written for earlier entries remains; in
the 3-entry scenario with cancellation after the second entry's file is
written and before the third entry's hashing polls, exactly 2 artifacts
exist, 3 progress events were emitted, and the terminal status is
`Canceled`. -/
theorem C1_amended_correct :
    (∀ (cfg : BatchConfig) (cancelAfter : Option Nat) (nowAt : Nat → Nat)
      (engines : Nat → EngineRun) (total : Nat) (e : String)
      (es : List String) (i : Nat) (st : CreateTorrentBatchQThread.State),
      tokenAt cancelAfter (CreateTorrentBatchQThread.generateBatchLoop
        cancelAfter (engines i).ticks st.poll (engines i).ok).1 = true →
      CreateTorrentBatchQThread.runAux cfg cancelAfter nowAt engines total
          (e :: es) i st
        = { poll := (CreateTorrentBatchQThread.generateBatchLoop cancelAfter
              (engines i).ticks st.poll (engines i).ok).1 + 1
            events := st.events ++ [(derivedName cfg.path e, i, total)]
            files := st.files
            success := some (CreateTorrentBatchQThread.generateBatchLoop
              cancelAfter (engines i).ticks st.poll (engines i).ok).2 }) ∧
    (∀ (cfg : BatchConfig) (nowAt : Nat → Nat) (engines : Nat → EngineRun)
      (e0 e1 e2 : String),
      (engines 2).ticks ≠ [] →
      (CreateTorrentBatchQThread.run cfg
        (some ((engines 0).ticks.length + 1 + (engines 1).ticks.length + 1))
        nowAt engines [e0, e1, e2]).files.length = 2 ∧
      (CreateTorrentBatchQThread.run cfg
        (some ((engines 0).ticks.length + 1 + (engines 1).ticks.length + 1))
        nowAt engines [e0, e1, e2]).events.length = 3 ∧
      (CreateTorrentBatchQThread.run cfg
        (some ((engines 0).ticks.length + 1 + (engines 1).ticks.length + 1))
        nowAt engines [e0, e1, e2]).success = some false ∧
      creation_finished (CreateTorrentBatchQThread.run cfg
        (some ((engines 0).ticks.length + 1 + (engines 1).ticks.length + 1))
        nowAt engines [e0, e1, e2]).success = Except.ok "Canceled") := by
  constructor
  · intro cfg cancelAfter nowAt engines total e es i st h
    simp only [CreateTorrentBatchQThread.runAux, h, if_true, derivedName]
  · intro cfg nowAt engines e0 e1 e2 hts
    have hg0 : CreateTorrentBatchQThread.generateBatchLoop
        (some ((engines 0).ticks.length + 1 + (engines 1).ticks.length + 1))
        (engines 0).ticks 0 (engines 0).ok
        = ((engines 0).ticks.length, (engines 0).ok) := by
      have := generateBatchLoop_no_stop
        ((engines 0).ticks.length + 1 + (engines 1).ticks.length + 1)
        (engines 0).ticks 0 (engines 0).ok (by omega)
      simpa using this
    have htok0 : tokenAt
        (some ((engines 0).ticks.length + 1 + (engines 1).ticks.length + 1))
        (engines 0).ticks.length = false := by
      simp only [tokenAt, decide_eq_false_iff_not]; omega
    have hg1 : CreateTorrentBatchQThread.generateBatchLoop
        (some ((engines 0).ticks.length + 1 + (engines 1).ticks.length + 1))
        (engines 1).ticks ((engines 0).ticks.length + 1) (engines 1).ok
        = ((engines 0).ticks.length + 1 + (engines 1).ticks.length,
           (engines 1).ok) :=
      generateBatchLoop_no_stop _ _ _ _ (by omega)
    have htok1 : tokenAt
        (some ((engines 0).ticks.length + 1 + (engines 1).ticks.length + 1))
        ((engines 0).ticks.length + 1 + (engines 1).ticks.length) = false := by
      simp only [tokenAt, decide_eq_false_iff_not]; omega
    have hg2 : CreateTorrentBatchQThread.generateBatchLoop
        (some ((engines 0).ticks.length + 1 + (engines 1).ticks.length + 1))
        (engines 2).ticks
        ((engines 0).ticks.length + 1 + (engines 1).ticks.length + 1)
        (engines 2).ok
        = ((engines 0).ticks.length + 1 + (engines 1).ticks.length + 1 + 1,
           false) :=
      generateBatchLoop_stop_first _ _ _ _ hts (Nat.le_refl _)
    have htok2 : tokenAt
        (some ((engines 0).ticks.length + 1 + (engines 1).ticks.length + 1))
        ((engines 0).ticks.length + 1 + (engines 1).ticks.length + 1 + 1)
        = true := by
      simp only [tokenAt, decide_eq_true_eq]; omega
    simp only [CreateTorrentBatchQThread.run,
      CreateTorrentBatchQThread.runAux, List.length_cons, List.length_nil,
      hg0, htok0, Bool.false_eq_true, if_false, hg1, htok1, hg2, htok2,
      if_true]
    simp [creation_finished]

/-- C1 witness: the amended theorem applied at concrete inputs — a one-entry
batch whose token is set from the start still emits the entry's event and
records `generate`'s result, writing nothing; and the concrete 3-entry
scenario leaves exactly 2 artifacts, 3 events, and terminal `Canceled`. -/
theorem C1_amended_correct_witness :
    (CreateTorrentBatchQThread.runAux ⟨"d", "o", [], [], false, "", false⟩
        (some 0) (fun _ => 0) (fun _ => EngineRun.mk [("x", 0, 1)] true) 1
        ["a"] 0 { poll := 0, events := [], files := [], success := none }
      = { poll := 2, events := [("a.torrent", 0, 1)], files := [],
          success := some false }) ∧
    ((CreateTorrentBatchQThread.run ⟨"d", "o", [], [], false, "", false⟩
        (some 4) (fun _ => 0) (fun _ => EngineRun.mk [("x", 0, 1)] true)
        ["a", "b", "c"]).files.length = 2 ∧
     (CreateTorrentBatchQThread.run ⟨"d", "o", [], [], false, "", false⟩
        (some 4) (fun _ => 0) (fun _ => EngineRun.mk [("x", 0, 1)] true)
        ["a", "b", "c"]).events.length = 3 ∧
     (CreateTorrentBatchQThread.run ⟨"d", "o", [], [], false, "", false⟩
        (some 4) (fun _ => 0) (fun _ => EngineRun.mk [("x", 0, 1)] true)
        ["a", "b", "c"]).success = some false ∧
     creation_finished (CreateTorrentBatchQThread.run
        ⟨"d", "o", [], [], false, "", false⟩ (some 4) (fun _ => 0)
        (fun _ => EngineRun.mk [("x", 0, 1)] true)
        ["a", "b", "c"]).success = Except.ok "Canceled") := by
  constructor
  · rw [C1_amended_correct.1 ⟨"d", "o", [], [], false, "", false⟩ (some 0)
      (fun _ => 0) (fun _ => EngineRun.mk [("x", 0, 1)] true) 1 "a" [] 0
      { poll := 0, events := [], files := [], success := none } (by decide)]
    decide
  · exact C1_amended_correct.2 ⟨"d", "o", [], [], false, "", false⟩
      (fun _ => 0) (fun _ => EngineRun.mk [("x", 0, 1)] true) "a" "b" "c"
      (by decide)

end DottorrentGui
